import Mathlib

set_option maxRecDepth 40000

/-!
Verification of the `doc_generator` pipeline (src/doc_generator.py).

The program is shallowly embedded: decoded JSON values become the inductive
`Json`; Python dictionaries are association lists; the effectful boundaries
(the HTTP response, the clock, the filesystem) become explicit inputs, and
every Python `raise` becomes an `Except` error value.  The exception classes
of the source (`AppError`, `APIConnectionError`, `DataParseError`) and the
relevant built-in Python exceptions observed inside `fetch_data` are modelled
by the inductives `AppExc` and `TryExc`.
-/

/-- A decoded JSON value, as produced by the Python function `json.loads`.  The value `None`
(both a JSON `null` and the result of a failed `dict.get` with no default)
is `Json.null`; numeric literals are modelled as integers (no claim involves
floating point).  Objects are association lists in document order. -/
inductive Json where
  | null : Json
  | bool (b : Bool) : Json
  | num (n : Int) : Json
  | str (s : String) : Json
  | arr (elems : List Json) : Json
  | obj (entries : List (String × Json)) : Json

/-- The ASCII single-quote character, used by Python `repr`/error messages. -/
def quoteMark : String := String.singleton (Char.ofNat 39)

/-- `type(v).__name__` for the Python value denoted by a `Json` value. -/
def pyTypeName : Json → String
  | .null => "NoneType"
  | .bool _ => "bool"
  | .num _ => "int"
  | .str _ => "str"
  | .arr _ => "list"
  | .obj _ => "dict"

mutual

/-- Python `repr` of a decoded JSON value (string escaping is not modelled;
no claim renders a string needing escapes). -/
def pyRepr : Json → String
  | .null => "None"
  | .bool true => "True"
  | .bool false => "False"
  | .num n => toString n
  | .str s => quoteMark ++ s ++ quoteMark
  | .arr elems => "[" ++ pyReprList elems ++ "]"
  | .obj entries => "\x7b" ++ pyReprEntries entries ++ "\x7d"

/-- Comma-separated `repr`s of the elements of a Python list. -/
def pyReprList : List Json → String
  | [] => ""
  | [x] => pyRepr x
  | x :: y :: rest => pyRepr x ++ ", " ++ pyReprList (y :: rest)

/-- Comma-separated `repr`s of the entries of a Python dict. -/
def pyReprEntries : List (String × Json) → String
  | [] => ""
  | [kv] => quoteMark ++ kv.1 ++ quoteMark ++ ": " ++ pyRepr kv.2
  | kv :: kv2 :: rest =>
    quoteMark ++ kv.1 ++ quoteMark ++ ": " ++ pyRepr kv.2 ++ ", " ++ pyReprEntries (kv2 :: rest)

end

/-- Python `str` of a decoded JSON value (as interpolated by an f-string). -/
def pyStr : Json → String
  | .str s => s
  | .null => "None"
  | .bool true => "True"
  | .bool false => "False"
  | .num n => toString n
  | .arr elems => pyRepr (.arr elems)
  | .obj entries => pyRepr (.obj entries)

/-- Key lookup in a Python dict (association list, first match). -/
def dictGet (entries : List (String × Json)) (k : String) : Option Json :=
  (entries.find? (fun kv => kv.1 = k)).map (fun kv => kv.2)

/-- The message of the `ValueError` that `UserData.from_json` raises when a
`.get` call hits a non-dict value: `Invalid data structure: {AttributeError}`
where the `AttributeError` message names the offending type. -/
def invalidStructureMsg (v : Json) : String :=
  "Invalid data structure: " ++ quoteMark ++ pyTypeName v ++ quoteMark ++
    " object has no attribute " ++ quoteMark ++ "get" ++ quoteMark

/-- Python `v.get(k, dflt)`: succeeds only on a dict, returning the value
bound to `k` or the default; on any other value the attribute access raises
`AttributeError`, which `from_json` converts to `ValueError` — modelled here
as the error case carrying the final `ValueError` message. -/
def pyGet (v : Json) (k : String) (dflt : Json) : Except String Json :=
  match v with
  | .obj entries => .ok ((dictGet entries k).getD dflt)
  | _ => .error (invalidStructureMsg v)

/-- The `UserData` dataclass.  The type annotations of the source
(`id: int` etc.) are not enforced by Python dataclasses, so each field holds
whatever value `from_json` extracted (`Json.null` models Python `None`). -/
structure UserData where
  id : Json
  name : Json
  username : Json
  email : Json
  company_name : Json
  city : Json

/-- `UserData.from_json`: `data.get` for the four top-level fields (no
default given, so the default is `None`), then the chained
`data.get("company", dict()).get("name", "N/A")` and the analogous
`address` / `city` chain for the nested ones, with the
`AttributeError → ValueError` wrapping of the `try/except` in the source.
The evaluation order is the keyword-argument order of the source. -/
def from_json (data : Json) : Except String UserData :=
  match pyGet data "id" Json.null with
  | .error m => .error m
  | .ok i =>
    match pyGet data "name" Json.null with
    | .error m => .error m
    | .ok n =>
      match pyGet data "username" Json.null with
      | .error m => .error m
      | .ok u =>
        match pyGet data "email" Json.null with
        | .error m => .error m
        | .ok e =>
          match pyGet data "company" (Json.obj []) with
          | .error m => .error m
          | .ok comp =>
            match pyGet comp "name" (Json.str "N/A") with
            | .error m => .error m
            | .ok cname =>
              match pyGet data "address" (Json.obj []) with
              | .error m => .error m
              | .ok addr =>
                match pyGet addr "city" (Json.str "N/A") with
                | .error m => .error m
                | .ok city => .ok ⟨i, n, u, e, cname, city⟩

/-- Exceptions that can be in flight inside the `try` block of
`ApiClient.fetch_data` (or raised by `urlopen` itself). -/
inductive TryExc where
  | urlError (reason : String)
  | apiConn (msg : String)
  | jsonDecode (msg : String)
  | typeError (msg : String)
  | valueError (msg : String)

/-- Python `str(e)` for an exception in flight inside the `try` block:
each of these exception classes stringifies to its message. -/
def tryExcStr : TryExc → String
  | .urlError r => r
  | .apiConn m => m
  | .jsonDecode m => m
  | .typeError m => m
  | .valueError m => m

/-- The application-level exceptions that `fetch_data` lets escape:
`APIConnectionError` and `DataParseError` are the two subclasses of
`AppError`; `appError` is a plain base-class `AppError` instance. -/
inductive AppExc where
  | apiConnectionError (msg : String)
  | dataParseError (msg : String)
  | appError (msg : String)

/-- Python iteration `for item in v` over a decoded JSON value: a list
yields its elements, a string its one-character substrings, a dict its keys;
anything else raises `TypeError`. -/
def pyIter : Json → Except TryExc (List Json)
  | .arr elems => .ok elems
  | .str s => .ok (s.data.map (fun c => Json.str (String.singleton c)))
  | .obj entries => .ok (entries.map (fun kv => Json.str kv.1))
  | v => .error (.typeError (quoteMark ++ pyTypeName v ++ quoteMark ++ " object is not iterable"))

/-- The mapping loop of `fetch_data`: `users.append(UserData.from_json(item))`
for each item in order, aborting at the first `ValueError`. -/
def mapUsers : List Json → Except TryExc (List UserData)
  | [] => .ok []
  | x :: rest =>
    match from_json x with
    | .error m => .error (.valueError m)
    | .ok u =>
      match mapUsers rest with
      | .error e => .error e
      | .ok us => .ok (u :: us)

/-- The body of the `try` block of `fetch_data`.  The effectful boundary is
explicit: `net = some reason` means `urlopen` raised `URLError(reason)`
(with a 10-second timeout, a timeout is one such reason); otherwise the
response arrived with the given `status`, and `body` is the result of
`json.loads` on the response bytes (`.error msg` = `JSONDecodeError`). -/
def fetchTryBody (net : Option String) (status : Nat) (body : Except String Json) :
    Except TryExc (List UserData) :=
  match net with
  | some reason => .error (.urlError reason)
  | none =>
    if status ≠ 200 then .error (.apiConn ("HTTP Error: " ++ toString status))
    else
      match body with
      | .error m => .error (.jsonDecode m)
      | .ok decoded =>
        match pyIter decoded with
        | .error e => .error e
        | .ok items => mapUsers items

/-- `ApiClient.fetch_data`: the `try` body followed by the except
chain of the source, in order: `except urllib.error.URLError` → `APIConnectionError`,
`except json.JSONDecodeError` → `DataParseError`, `except Exception` →
`AppError` — the last clause also catches the `APIConnectionError` raised
for a non-200 status inside the `try` block. -/
def fetch_data (net : Option String) (status : Nat) (body : Except String Json) :
    Except AppExc (List UserData) :=
  match fetchTryBody net status body with
  | .ok users => .ok users
  | .error (.urlError reason) => .error (.apiConnectionError ("Network Error: " ++ reason))
  | .error (.jsonDecode m) => .error (.dataParseError ("JSON Decode Error: " ++ m))
  | .error e => .error (.appError ("Unexpected Error: " ++ tryExcStr e))

/-- `"\n".join(lines)` (Python string join). -/
def strJoin (sep : String) : List String → String
  | [] => ""
  | [a] => a
  | a :: b :: rest => a ++ sep ++ strJoin sep (b :: rest)

/-- `c * n` repetition of a single character, as in `"=" * 60`. -/
def repChar (c : Char) (n : Nat) : String := String.mk (List.replicate n c)

/-- Python format-spec centering `f"{s:^w}"`: pad with spaces to width `w`,
extra space on the right. -/
def pyCenter (s : String) (w : Nat) : String :=
  if w ≤ s.length then s
  else
    let pad := w - s.length
    String.mk (List.replicate (pad / 2) ' ') ++ s ++ String.mk (List.replicate (pad - pad / 2) ' ')

/-- The six labelled field lines plus 30-column dash separator appended for
one user by the loop of `generate_text_report`. -/
def userLines (u : UserData) : List String :=
  ["ID       : " ++ pyStr u.id,
   "Name     : " ++ pyStr u.name,
   "Username : " ++ pyStr u.username,
   "Email    : " ++ pyStr u.email,
   "Company  : " ++ pyStr u.company_name,
   "City     : " ++ pyStr u.city,
   repChar '-' 30]

/-- The `lines` list built by `ReportGenerator.generate_text_report`; the
clock read (`datetime.datetime.now()` formatted as `%Y-%m-%d %H:%M:%S`) is the
explicit input `now`. -/
def reportLines (users : List UserData) (now : String) : List String :=
  [repChar '=' 60,
   pyCenter "PORTABLE DOC REPORT" 60,
   repChar '=' 60,
   "Generated on: " ++ now,
   repChar '-' 60]
  ++ users.flatMap userLines
  ++ ["Total Users: " ++ toString users.length]

/-- `ReportGenerator.generate_text_report`: `"\n".join(lines)`. -/
def generate_text_report (users : List UserData) (now : String) : String :=
  strJoin "\n" (reportLines users now)

/-- The filesystem, as far as the program observes it: the set of existing
directories, the files with their contents, and two failure oracles saying
whether the next `os.makedirs` / `open`+`write` raises an `OSError` (and
with which message).  Oracles model permission errors, full disks, etc. -/
structure FS where
  dirs : List String
  files : List (String × String)
  mkdirErr : Option String
  writeErr : Option String

/-- The directory and all its ancestors along `/` separators, in root-to-leaf
order; the final element is the full path itself. -/
def ancGo (acc : List Char) : List Char → List String
  | [] => [String.mk acc.reverse]
  | c :: rest =>
    if c = '/' then String.mk acc.reverse :: ancGo (c :: acc) rest
    else ancGo (c :: acc) rest

/-- All path prefixes of `p` created by `os.makedirs p` (parents first,
`p` itself last). -/
def ancestors (p : String) : List String := ancGo [] p.data

/-- `os.makedirs dir`: raises the oracle `OSError` if set, otherwise
creates the directory and its missing parents. -/
def makedirs (dir : String) (fs : FS) : Except String FS :=
  match fs.mkdirErr with
  | some e => .error e
  | none => .ok { fs with dirs := ancestors dir ++ fs.dirs }

/-- The only state of a `ReportGenerator` instance. -/
structure ReportGenerator where
  output_dir : String

/-- `ReportGenerator.__init__`: skip creation when the path already exists,
otherwise `try: os.makedirs(output_dir) except OSError: pass` — note the
`except` clause swallows every `OSError`, not only "already exists". -/
def reportGeneratorInit (output_dir : String) (fs : FS) : ReportGenerator × FS :=
  if output_dir ∈ fs.dirs then (⟨output_dir⟩, fs)
  else
    match makedirs output_dir fs with
    | .ok fs2 => (⟨output_dir⟩, fs2)
    | .error _ => (⟨output_dir⟩, fs)

/-- `ReportGenerator.save_to_file`: `open` on `os.path.join(dir, filename)`
in write mode and write, with no `try` — an `OSError` from the oracle propagates; on
success the file at `dir/filename` holds exactly `content`. -/
def save_to_file (gen : ReportGenerator) (content : String) (filename : String) (fs : FS) :
    Except String FS :=
  let filepath := gen.output_dir ++ "/" ++ filename
  match fs.writeErr with
  | some e => .error e
  | none => .ok { fs with files := (filepath, content) :: fs.files.filter (fun kv => kv.1 ≠ filepath) }

/-- Python `str(e)` of an escaped application exception, as printed by the
`Fatal Error:` line of the driver. -/
def appExcStr : AppExc → String
  | .apiConnectionError m => m
  | .dataParseError m => m
  | .appError m => m

/-- The `__main__` driver: `fetch_data`, then construct
`ReportGenerator("portable_reports")`, render, and save to
`Report_<stamp>.txt`; any exception lands in the single top-level handler,
which only prints.  Returns the final filesystem and the fatal-error message
if one was printed.  `now` is the strftime for the report header, `stamp`
the strftime for the filename. -/
def mainPipeline (net : Option String) (status : Nat) (body : Except String Json)
    (now : String) (stamp : String) (fs : FS) : FS × Option String :=
  match fetch_data net status body with
  | .error e => (fs, some ("Fatal Error: " ++ appExcStr e))
  | .ok users =>
    let (gen, fs1) := reportGeneratorInit "portable_reports" fs
    let content := generate_text_report users now
    let filename := "Report_" ++ stamp ++ ".txt"
    match save_to_file gen content filename fs1 with
    | .error e => (fs1, some ("Fatal Error: " ++ e))
    | .ok fs2 => (fs2, none)

/-- Split a character list at every newline; always returns one chunk more
than the number of newlines (so a trailing newline yields a final empty
chunk). -/
def splitNlCore : List Char → List Char × List (List Char)
  | [] => ([], [])
  | c :: rest =>
    let p := splitNlCore rest
    if c = '\n' then ([], p.1 :: p.2) else (c :: p.1, p.2)

/-- The newline-separated chunks of a character list (never empty). -/
def splitNl (l : List Char) : List (List Char) :=
  (splitNlCore l).1 :: (splitNlCore l).2

/-- The newline-separated lines of a string. -/
def splitNlStr (s : String) : List String := (splitNl s.data).map (fun l => String.mk l)

/-- A string free of newline characters. -/
def noNl (s : String) : Prop := ∀ c ∈ s.data, c ≠ '\n'

instance (s : String) : Decidable (noNl s) := by
  unfold noNl
  infer_instance

/-- The fixed report text up to and including the `Generated on: ` label —
everything the renderer emits before the supplied timestamp. -/
def reportHead : String :=
  repChar '=' 60 ++ "\n" ++ pyCenter "PORTABLE DOC REPORT" 60 ++ "\n" ++
    repChar '=' 60 ++ "\n" ++ "Generated on: "

/-- The report text strictly after the newline that follows the timestamp
line: the dashed
separator, the per-record blocks, and the count footer.  Depends only on the
records, not on the timestamp. -/
def reportAfterTs (users : List UserData) : String :=
  strJoin "\n" (repChar '-' 60 :: (users.flatMap userLines ++ ["Total Users: " ++ toString users.length]))

/-- Spec-side condition of claim C3: `company` absent, or present as an
object lacking `name` (the cases the claim says default `companyName`). -/
def companyDefaulted (entries : List (String × Json)) : Prop :=
  dictGet entries "company" = none ∨
    ∃ c, dictGet entries "company" = some (Json.obj c) ∧ dictGet c "name" = none

/-- Spec-side condition of claim C3 for `address`/`city`. -/
def addressDefaulted (entries : List (String × Json)) : Prop :=
  dictGet entries "address" = none ∨
    ∃ a, dictGet entries "address" = some (Json.obj a) ∧ dictGet a "city" = none

/-- Characterization of when `from_json` raises: the top-level value is not
a dict, or the value stored under `company` or `address` is present and not
a dict (the absent-key defaults `\x7b\x7d` are dicts, so only present
non-dict values fail). -/
def mapperFails : Json → Bool
  | .obj entries =>
    (match (dictGet entries "company").getD (Json.obj []) with
     | .obj _ => false
     | _ => true) ||
    (match (dictGet entries "address").getD (Json.obj []) with
     | .obj _ => false
     | _ => true)
  | _ => true

/-- The single-user scenario input of the spec (section 8). -/
def leanneJson : Json :=
  Json.obj [("id", Json.num 1),
            ("name", Json.str "Leanne Graham"),
            ("username", Json.str "Bret"),
            ("email", Json.str "[email protected]"),
            ("address", Json.obj [("city", Json.str "Gwenborough")]),
            ("company", Json.obj [("name", Json.str "Romaguera-Crona")])]

/-- The record the scenario expects `from_json` to produce. -/
def leanneRecord : UserData :=
  ⟨Json.num 1, Json.str "Leanne Graham", Json.str "Bret", Json.str "[email protected]",
   Json.str "Romaguera-Crona", Json.str "Gwenborough"⟩

/-- A record whose `name` field renders with an embedded newline (reachable:
a JSON string may contain an escaped newline). -/
def newlineRecord : UserData :=
  ⟨Json.null, Json.str "a\nb", Json.null, Json.null, Json.str "N/A", Json.str "N/A"⟩

/-! Helper lemmas about strings, splitting, and the embedded functions. -/

theorem strDataAppend (a b : String) : (a ++ b).data = a.data ++ b.data := rfl

theorem strMkData (s : String) : String.mk s.data = s := by cases s; rfl

theorem strAppendAssoc (a b c : String) : a ++ b ++ c = a ++ (b ++ c) := by
  cases a; cases b; cases c
  exact congrArg String.mk (List.append_assoc _ _ _)

theorem strNilAppend (a : String) : "" ++ a = a := by cases a; rfl

/-- The rendered report decomposes as fixed head, supplied timestamp, then a
tail depending only on the records. -/
theorem generate_decomp (users : List UserData) (now : String) :
    generate_text_report users now = reportHead ++ now ++ "\n" ++ reportAfterTs users := by
  simp only [generate_text_report, reportLines, reportHead, reportAfterTs,
    List.cons_append, List.nil_append, List.append_eq, strJoin, strAppendAssoc]

theorem splitNlCore_noNl (l : List Char) (h : ∀ c ∈ l, c ≠ '\n') :
    splitNlCore l = (l, []) := by
  induction l with
  | nil => rfl
  | cons c rest ih =>
    have hc : c ≠ '\n' := h c (List.mem_cons_self _ _)
    have hrest : splitNlCore rest = (rest, []) := ih (fun x hx => h x (List.mem_cons_of_mem _ hx))
    simp [splitNlCore, hrest, hc]

theorem splitNlCore_append (x z : List Char) (h : ∀ c ∈ x, c ≠ '\n') :
    splitNlCore (x ++ z) = (x ++ (splitNlCore z).1, (splitNlCore z).2) := by
  induction x with
  | nil => simp
  | cons c rest ih =>
    have hc : c ≠ '\n' := h c (List.mem_cons_self _ _)
    have hrest := ih (fun y hy => h y (List.mem_cons_of_mem _ hy))
    simp [splitNlCore, hrest, hc]

theorem splitNl_strJoin (L : List String) (hne : L ≠ []) (h : ∀ s ∈ L, noNl s) :
    splitNl ((strJoin "\n" L).data) = L.map String.data := by
  induction L with
  | nil => exact absurd rfl hne
  | cons a rest ih =>
    cases rest with
    | nil =>
      have ha : noNl a := h a (List.mem_cons_self _ _)
      simp [strJoin, splitNl, splitNlCore_noNl a.data ha]
    | cons b rest2 =>
      have ha : noNl a := h a (List.mem_cons_self _ _)
      have hjoin : strJoin "\n" (a :: b :: rest2) = a ++ "\n" ++ strJoin "\n" (b :: rest2) := rfl
      have hdata : (a ++ "\n" ++ strJoin "\n" (b :: rest2)).data
          = a.data ++ ('\n' :: (strJoin "\n" (b :: rest2)).data) := by
        simp [strDataAppend, List.append_assoc]
      have hrec := ih (by simp) (fun s hs => h s (List.mem_cons_of_mem _ hs))
      rw [hjoin]
      unfold splitNl at hrec ⊢
      rw [hdata, splitNlCore_append a.data _ ha]
      have hnl : splitNlCore ('\n' :: (strJoin "\n" (b :: rest2)).data)
          = ([], (splitNlCore ((strJoin "\n" (b :: rest2)).data)).1
               :: (splitNlCore ((strJoin "\n" (b :: rest2)).data)).2) := by
        simp [splitNlCore]
      rw [hnl]
      simp at hrec ⊢
      exact hrec

theorem splitNlStr_strJoin (L : List String) (hne : L ≠ []) (h : ∀ s ∈ L, noNl s) :
    splitNlStr (strJoin "\n" L) = L := by
  unfold splitNlStr
  rw [splitNl_strJoin L hne h, List.map_map]
  have hcomp : ((fun l => String.mk l) ∘ String.data) = fun s : String => s :=
    funext (fun s => strMkData s)
  rw [hcomp]
  exact List.map_id' _

theorem digitChar_ne_newline (m : Nat) : Nat.digitChar m ≠ '\n' := by
  match m with
  | 0 | 1 | 2 | 3 | 4 | 5 | 6 | 7 | 8 | 9 | 10 | 11 | 12 | 13 | 14 | 15 => decide
  | n + 16 =>
    unfold Nat.digitChar
    rw [if_neg (by omega : ¬ n + 16 = 0)]
    rw [if_neg (by omega : ¬ n + 16 = 1)]
    rw [if_neg (by omega : ¬ n + 16 = 2)]
    rw [if_neg (by omega : ¬ n + 16 = 3)]
    rw [if_neg (by omega : ¬ n + 16 = 4)]
    rw [if_neg (by omega : ¬ n + 16 = 5)]
    rw [if_neg (by omega : ¬ n + 16 = 6)]
    rw [if_neg (by omega : ¬ n + 16 = 7)]
    rw [if_neg (by omega : ¬ n + 16 = 8)]
    rw [if_neg (by omega : ¬ n + 16 = 9)]
    rw [if_neg (by omega : ¬ n + 16 = 10)]
    rw [if_neg (by omega : ¬ n + 16 = 11)]
    rw [if_neg (by omega : ¬ n + 16 = 12)]
    rw [if_neg (by omega : ¬ n + 16 = 13)]
    rw [if_neg (by omega : ¬ n + 16 = 14)]
    rw [if_neg (by omega : ¬ n + 16 = 15)]
    decide

theorem toDigitsCore_ne_newline (b : Nat) (f : Nat) :
    ∀ (n : Nat) (ds : List Char), (∀ c ∈ ds, c ≠ '\n') →
      ∀ c ∈ Nat.toDigitsCore b f n ds, c ≠ '\n' := by
  induction f with
  | zero =>
    intro n ds h
    simpa [Nat.toDigitsCore] using h
  | succ f ih =>
    intro n ds h
    have hstep : ∀ c ∈ Nat.digitChar (n % b) :: ds, c ≠ '\n' := by
      intro c hc
      rcases List.mem_cons.mp hc with h1 | h2
      · subst h1
        exact digitChar_ne_newline _
      · exact h c h2
    simp only [Nat.toDigitsCore]
    split
    · exact hstep
    · exact ih _ _ hstep

theorem natToString_noNl (n : Nat) : noNl (toString n) := by
  intro c hc
  exact toDigitsCore_ne_newline 10 (n + 1) n [] (by simp) c hc

/-- `strJoin` ends with its last element. -/
theorem strJoin_concat (L : List String) (a : String) :
    ∃ P, strJoin "\n" (L ++ [a]) = P ++ a := by
  induction L with
  | nil => exact ⟨"", (strNilAppend a).symm⟩
  | cons x rest ih =>
    cases rest with
    | nil => exact ⟨x ++ "\n", rfl⟩
    | cons y rest2 =>
      rcases ih with ⟨P, hP⟩
      refine ⟨x ++ "\n" ++ P, ?_⟩
      have : strJoin "\n" ((x :: y :: rest2) ++ [a]) = x ++ "\n" ++ strJoin "\n" ((y :: rest2) ++ [a]) := rfl
      rw [this, hP, strAppendAssoc (x ++ "\n") P a]

theorem mapUsers_ok_length : ∀ (xs : List Json) (us : List UserData),
    mapUsers xs = .ok us → us.length = xs.length := by
  intro xs
  induction xs with
  | nil => intro us h; cases h; rfl
  | cons x rest ih =>
    intro us h
    unfold mapUsers at h
    cases hx : from_json x with
    | error m => rw [hx] at h; cases h
    | ok u =>
      rw [hx] at h
      cases hrest : mapUsers rest with
      | error e => rw [hrest] at h; cases h
      | ok us2 =>
        rw [hrest] at h
        cases h
        simp [ih us2 hrest]

theorem mapUsers_ok_get : ∀ (xs : List Json) (us : List UserData),
    mapUsers xs = .ok us →
      ∀ (i : Nat) (h1 : i < xs.length) (h2 : i < us.length),
        from_json (xs.get ⟨i, h1⟩) = .ok (us.get ⟨i, h2⟩) := by
  intro xs
  induction xs with
  | nil => intro us _ i h1; exact absurd h1 (by simp)
  | cons x rest ih =>
    intro us h i h1 h2
    unfold mapUsers at h
    cases hx : from_json x with
    | error m => rw [hx] at h; cases h
    | ok u =>
      rw [hx] at h
      cases hrest : mapUsers rest with
      | error e => rw [hrest] at h; cases h
      | ok us2 =>
        rw [hrest] at h
        cases h
        cases i with
        | zero => simpa using hx
        | succ j =>
          have hj1 : j < rest.length := by simpa using h1
          have hj2 : j < us2.length := by simpa using h2
          simpa using ih us2 hrest j hj1 hj2

theorem mapUsers_no_jsonDecode : ∀ (xs : List Json) (m : String),
    mapUsers xs ≠ .error (.jsonDecode m) := by
  intro xs
  induction xs with
  | nil => intro m h; cases h
  | cons x rest ih =>
    intro m h
    unfold mapUsers at h
    cases hx : from_json x with
    | error m2 => rw [hx] at h; cases h
    | ok u =>
      rw [hx] at h
      cases hrest : mapUsers rest with
      | error e =>
        rw [hrest] at h
        cases h
        exact ih m hrest
      | ok us => rw [hrest] at h; cases h

theorem flatMap_userLines_length : ∀ (users : List UserData),
    (users.flatMap userLines).length = 7 * users.length := by
  intro users
  induction users with
  | nil => rfl
  | cons u rest ih =>
    simp only [List.flatMap_cons, List.length_append, ih, List.length_cons]
    simp [userLines]
    ring

theorem ancGo_self_mem : ∀ (l acc : List Char), String.mk (acc.reverse ++ l) ∈ ancGo acc l := by
  intro l
  induction l with
  | nil => intro acc; simp [ancGo]
  | cons c rest ih =>
    intro acc
    unfold ancGo
    by_cases hc : c = '/'
    · rw [if_pos hc]
      refine List.mem_cons_of_mem _ ?_
      have h := ih (c :: acc)
      simpa [List.reverse_cons, List.append_assoc] using h
    · rw [if_neg hc]
      have h := ih (c :: acc)
      simpa [List.reverse_cons, List.append_assoc] using h

theorem self_mem_ancestors (p : String) : p ∈ ancestors p := by
  have h := ancGo_self_mem p.data []
  simpa [ancestors, strMkData] using h

theorem noNl_append (a b : String) (ha : noNl a) (hb : noNl b) : noNl (a ++ b) := by
  intro c hc
  rw [strDataAppend] at hc
  rcases List.mem_append.mp hc with h | h
  · exact ha c h
  · exact hb c h

/-- Closed form of `from_json` on a dict input: the four top-level fields
always succeed (defaulting to `None`), and the result is an error exactly
when the value found under `company` (first) or `address` (second) is
present and not a dict. -/
theorem from_json_obj (entries : List (String × Json)) :
    from_json (Json.obj entries) =
      match (dictGet entries "company").getD (Json.obj []) with
      | Json.obj c =>
        (match (dictGet entries "address").getD (Json.obj []) with
         | Json.obj a =>
           .ok ⟨(dictGet entries "id").getD Json.null,
                (dictGet entries "name").getD Json.null,
                (dictGet entries "username").getD Json.null,
                (dictGet entries "email").getD Json.null,
                (dictGet c "name").getD (Json.str "N/A"),
                (dictGet a "city").getD (Json.str "N/A")⟩
         | v => .error (invalidStructureMsg v))
      | v => .error (invalidStructureMsg v) := by
  cases hc : (dictGet entries "company").getD (Json.obj []) <;>
    cases ha : (dictGet entries "address").getD (Json.obj []) <;>
      simp [from_json, pyGet, hc, ha]

/-- Claim C3 counterexample: for the object input with `company` bound to
the number 5 (present but not an object), the mapper raises `ValueError`
instead of producing a record with `companyName = "N/A"` — no record is
produced at all, refuting the "present but not an object" part of C3. -/
theorem from_json_company_nonobject_raises :
    from_json (Json.obj [("company", Json.num 5)]) = .error (invalidStructureMsg (Json.num 5)) ∧
    (from_json (Json.obj [("company", Json.num 5)])).isOk = false := ⟨rfl, rfl⟩

/-- Claim C3 (amended): for a decoded JSON object, if `company` is absent,
or present as an object lacking `name`, then any successfully mapped record
has `companyName = "N/A"`, and identically for `address`/`city`; but if
`company` (or `address`) is present and NOT an object, the mapper fails
with a `ValueError` rather than defaulting to `"N/A"`. -/
theorem from_json_nested_defaults (entries : List (String × Json)) :
    (∀ u, from_json (Json.obj entries) = .ok u →
      (companyDefaulted entries → u.company_name = Json.str "N/A") ∧
      (addressDefaulted entries → u.city = Json.str "N/A")) ∧
    (∀ v, dictGet entries "company" = some v → (∀ c, v ≠ Json.obj c) →
      (from_json (Json.obj entries)).isOk = false) ∧
    (∀ v, dictGet entries "address" = some v → (∀ a, v ≠ Json.obj a) →
      (from_json (Json.obj entries)).isOk = false) := by
  refine ⟨?_, ?_, ?_⟩
  · intro u
    rw [from_json_obj]
    cases hcp : (dictGet entries "company").getD (Json.obj []) <;>
      cases ha : (dictGet entries "address").getD (Json.obj []) <;> intro hu
    case obj.obj c a =>
      cases hu
      constructor
      · rintro (habs | ⟨c2, hcomp, hname⟩)
        · rw [habs] at hcp
          simp only [Option.getD_none, Json.obj.injEq] at hcp
          subst hcp
          rfl
        · rw [hcomp] at hcp
          simp only [Option.getD_some, Json.obj.injEq] at hcp
          subst hcp
          show (dictGet c2 "name").getD (Json.str "N/A") = Json.str "N/A"
          rw [hname]
          rfl
      · rintro (habs | ⟨a2, haddr, hcity⟩)
        · rw [habs] at ha
          simp only [Option.getD_none, Json.obj.injEq] at ha
          subst ha
          rfl
        · rw [haddr] at ha
          simp only [Option.getD_some, Json.obj.injEq] at ha
          subst ha
          show (dictGet a2 "city").getD (Json.str "N/A") = Json.str "N/A"
          rw [hcity]
          rfl
    all_goals exact absurd hu (by simp)
  · intro v hv hnotobj
    rw [from_json_obj, hv]
    cases v with
    | obj c => exact absurd rfl (hnotobj c)
    | null => rfl
    | bool b => rfl
    | num n => rfl
    | str s => rfl
    | arr elems => rfl
  · intro v hv hnotobj
    rw [from_json_obj]
    cases hcp : (dictGet entries "company").getD (Json.obj []) with
    | obj c =>
      rw [hv]
      cases v with
      | obj a => exact absurd rfl (hnotobj a)
      | null => rfl
      | bool b => rfl
      | num n => rfl
      | str s => rfl
      | arr elems => rfl
    | null => rfl
    | bool b => rfl
    | num n => rfl
    | str s => rfl
    | arr elems => rfl

/-- Claim C5 counterexample: an input that IS a key-value structure (an
object with `address` bound to the number 7) still makes the mapper fail,
because the chained `.get` hits a non-dict value — refuting the claim that
the mapper fails only when the top-level input is not an object. -/
theorem from_json_object_address_scalar_fails :
    from_json (Json.obj [("address", Json.num 7)]) = .error (invalidStructureMsg (Json.num 7)) ∧
    (from_json (Json.obj [("address", Json.num 7)])).isOk = false := ⟨rfl, rfl⟩

/-- Claim C5 (amended): the mapper fails exactly when the top-level input
is not a key-value structure, OR when `company` or `address` is present
with a non-object value (`mapperFails`); the failure is a `ValueError`
(surfacing from `fetch_data` as the catch-all base `AppError`), not a
`DataParseError`.  For an object input that maps successfully, absence of
any of `id`, `name`, `username`, `email` yields the null value `None` for
that field, with no rejection. -/
theorem from_json_failure_characterization (d : Json) :
    ((∃ m, from_json d = .error m) ↔ mapperFails d = true) ∧
    (∀ entries u, d = Json.obj entries → from_json d = .ok u →
      (dictGet entries "id" = none → u.id = Json.null) ∧
      (dictGet entries "name" = none → u.name = Json.null) ∧
      (dictGet entries "username" = none → u.username = Json.null) ∧
      (dictGet entries "email" = none → u.email = Json.null)) := by
  constructor
  · cases d with
    | obj entries =>
      rw [from_json_obj]
      cases hcp : (dictGet entries "company").getD (Json.obj []) <;>
        cases ha : (dictGet entries "address").getD (Json.obj []) <;>
          simp [mapperFails, hcp, ha]
    | null => simp [from_json, pyGet, mapperFails]
    | bool b => simp [from_json, pyGet, mapperFails]
    | num n => simp [from_json, pyGet, mapperFails]
    | str s => simp [from_json, pyGet, mapperFails]
    | arr elems => simp [from_json, pyGet, mapperFails]
  · intro entries u hd
    subst hd
    rw [from_json_obj]
    cases hcp : (dictGet entries "company").getD (Json.obj []) <;>
      cases ha : (dictGet entries "address").getD (Json.obj []) <;> intro hu
    case obj.obj c a =>
      cases hu
      refine ⟨?_, ?_, ?_, ?_⟩ <;> intro habs <;> rw [habs] <;> rfl
    all_goals exact absurd hu (by simp)

/-- Claim C1 (code bug): the claim says a non-200 status (e.g. 404) makes
`fetch_data` fail with an `APIConnectionError` carrying the status.  In the
code, the `raise APIConnectionError` inside the `try` block is intercepted
by the final `except Exception` clause, so `fetch_data` escapes with a plain
base-class `AppError` (message `Unexpected Error: HTTP Error: 404`) instead
of the `APIConnectionError` that the explicit raise and the class docstring
intend.  The driver still writes no file: the filesystem is untouched. -/
theorem fetch_404_catchall_bug (body : Except String Json) (now stamp : String) (fs : FS) :
    fetch_data none 404 body = .error (.appError "Unexpected Error: HTTP Error: 404") ∧
    (mainPipeline none 404 body now stamp fs).1 = fs := ⟨rfl, rfl⟩

/-- Claim C4 counterexample: a body that is valid JSON but not an array of
objects (here the integer 5) does NOT produce a `DataParseError`, refuting
the "exactly when" of the claim; iterating the integer raises `TypeError`,
and the catch-all `except Exception` turns it into a base `AppError`. -/
theorem fetch_nonarray_json_not_parse_error :
    fetch_data none 200 (.ok (Json.num 5)) =
      .error (.appError ("Unexpected Error: " ++ quoteMark ++ "int" ++ quoteMark ++
        " object is not iterable")) := rfl

/-- Claim C4 (amended): `fetch_data` fails with a `DataParseError` exactly
when the response arrived (no network error), the status was 200, and the
body was not valid JSON (a `json.loads` failure); in particular the
scenario body `not json` yields `DataParseError` and leaves the filesystem
untouched.  Valid JSON that is not an array of objects does NOT yield
`DataParseError` (see the counterexample theorem). -/
theorem fetch_parse_error_iff_decode_failure (net : Option String) (status : Nat)
    (body : Except String Json) :
    ((∃ m, fetch_data net status body = .error (.dataParseError m)) ↔
      net = none ∧ status = 200 ∧ ∃ m, body = .error m) ∧
    fetch_data none 200 (.error "Expecting value: line 1 column 1 (char 0)") =
      .error (.dataParseError "JSON Decode Error: Expecting value: line 1 column 1 (char 0)") ∧
    (∀ now stamp fs, (mainPipeline none 200
        (.error "Expecting value: line 1 column 1 (char 0)") now stamp fs).1 = fs) := by
  refine ⟨⟨?_, ?_⟩, rfl, fun now stamp fs => rfl⟩
  · rintro ⟨m, hm⟩
    cases net with
    | some r => exact absurd hm (by simp [fetch_data, fetchTryBody])
    | none =>
      by_cases hs : status = 200
      · subst hs
        cases body with
        | error m2 => exact ⟨rfl, rfl, m2, rfl⟩
        | ok j =>
          exfalso
          cases j with
          | null => exact absurd hm (by simp [fetch_data, fetchTryBody, pyIter])
          | bool b => exact absurd hm (by simp [fetch_data, fetchTryBody, pyIter])
          | num n => exact absurd hm (by simp [fetch_data, fetchTryBody, pyIter])
          | str s =>
            simp only [fetch_data, fetchTryBody, pyIter] at hm
            rcases hmu : mapUsers (s.data.map (fun c => Json.str (String.singleton c))) with e | us
            · rw [hmu] at hm
              cases e with
              | urlError r => simp at hm
              | apiConn m2 => simp at hm
              | jsonDecode m2 => exact mapUsers_no_jsonDecode _ m2 hmu
              | typeError m2 => simp at hm
              | valueError m2 => simp at hm
            · rw [hmu] at hm
              simp at hm
          | arr elems =>
            simp only [fetch_data, fetchTryBody, pyIter] at hm
            rcases hmu : mapUsers elems with e | us
            · rw [hmu] at hm
              cases e with
              | urlError r => simp at hm
              | apiConn m2 => simp at hm
              | jsonDecode m2 => exact mapUsers_no_jsonDecode _ m2 hmu
              | typeError m2 => simp at hm
              | valueError m2 => simp at hm
            · rw [hmu] at hm
              simp at hm
          | obj entries =>
            simp only [fetch_data, fetchTryBody, pyIter] at hm
            rcases hmu : mapUsers (entries.map (fun kv => Json.str kv.1)) with e | us
            · rw [hmu] at hm
              cases e with
              | urlError r => simp at hm
              | apiConn m2 => simp at hm
              | jsonDecode m2 => exact mapUsers_no_jsonDecode _ m2 hmu
              | typeError m2 => simp at hm
              | valueError m2 => simp at hm
            · rw [hmu] at hm
              simp at hm
      · exact absurd hm (by simp [fetch_data, fetchTryBody, hs])
  · rintro ⟨rfl, rfl, m2, rfl⟩
    exact ⟨"JSON Decode Error: " ++ m2, rfl⟩

/-- Claim C6: for a valid JSON array whose elements all map successfully,
`fetch_data` returns exactly the mapped records: the output length equals
the input array length, and the i-th record is `from_json` of the i-th
array element (order preserved, 1:1). -/
theorem fetch_maps_in_order (xs : List Json) (us : List UserData)
    (h : mapUsers xs = .ok us) :
    fetch_data none 200 (.ok (Json.arr xs)) = .ok us ∧
    us.length = xs.length ∧
    ∀ (i : Nat) (h1 : i < xs.length) (h2 : i < us.length),
      from_json (xs.get ⟨i, h1⟩) = .ok (us.get ⟨i, h2⟩) := by
  refine ⟨?_, mapUsers_ok_length xs us h, mapUsers_ok_get xs us h⟩
  simp [fetch_data, fetchTryBody, pyIter, h]

/-- Witness for C6 at the one-element array containing an empty object. -/
theorem fetch_maps_in_order_witness :
    fetch_data none 200 (.ok (Json.arr [Json.obj []])) =
      .ok [⟨Json.null, Json.null, Json.null, Json.null, Json.str "N/A", Json.str "N/A"⟩] :=
  (fetch_maps_in_order [Json.obj []]
    [⟨Json.null, Json.null, Json.null, Json.null, Json.str "N/A", Json.str "N/A"⟩] rfl).1

/-- Claim C7: the single scenario input of the spec maps to the expected
record (id 1, name Leanne Graham, username Bret, the scenario email,
companyName Romaguera-Crona, city Gwenborough), and rendering the
one-element list yields text containing the exact line
`Company  : Romaguera-Crona` and ending with `Total Users: 1`. -/
theorem leanne_scenario :
    from_json leanneJson = .ok leanneRecord ∧
    "Company  : Romaguera-Crona" ∈
      splitNlStr (generate_text_report [leanneRecord] "2025-01-01 12:00:00") ∧
    ("Total Users: 1").data.isSuffixOf
      (generate_text_report [leanneRecord] "2025-01-01 12:00:00").data = true := by
  refine ⟨rfl, by decide, by decide⟩

/-- Claim C2: the renderer is a pure, deterministic function of the records
and the (explicitly passed) clock string: two renderings agree exactly when
the timestamps agree, and the output decomposes as a fixed head, then the
supplied timestamp (the `Generated on:` line), then a tail depending only
on the records — so the timestamp line comes from the supplied timestamp
and from nothing else. -/
theorem render_deterministic_generated_on (users : List UserData) (ts ts2 : String) :
    (generate_text_report users ts = generate_text_report users ts2 ↔ ts = ts2) ∧
    generate_text_report users ts = reportHead ++ ts ++ "\n" ++ reportAfterTs users := by
  refine ⟨⟨?_, ?_⟩, generate_decomp users ts⟩
  · intro h
    rw [generate_decomp users ts, generate_decomp users ts2] at h
    have hd := congrArg String.data h
    simp only [strDataAppend, List.append_assoc] at hd
    have h1 := List.append_cancel_left hd
    have h2 := List.append_cancel_right h1
    rw [← strMkData ts, ← strMkData ts2, h2]
  · intro h
    rw [h]

/-- Claim C8: rendering the empty record list produces exactly the header
(banner, centered title, banner, `Generated on:` line, 60-dash separator)
followed by the single footer line `Total Users: 0` — no per-record blocks;
for a newline-free timestamp the newline-separated lines are exactly those
six. -/
theorem render_empty_report (ts : String) :
    generate_text_report [] ts =
      repChar '=' 60 ++ "\n" ++ pyCenter "PORTABLE DOC REPORT" 60 ++ "\n" ++ repChar '=' 60 ++
        "\n" ++ "Generated on: " ++ ts ++ "\n" ++ repChar '-' 60 ++ "\n" ++ "Total Users: 0" ∧
    (noNl ts → splitNlStr (generate_text_report [] ts) =
      [repChar '=' 60, pyCenter "PORTABLE DOC REPORT" 60, repChar '=' 60,
       "Generated on: " ++ ts, repChar '-' 60, "Total Users: 0"]) := by
  have h0 : ("Total Users: " ++ toString (0 : Nat)) = "Total Users: 0" := rfl
  have hL : reportLines [] ts =
      [repChar '=' 60, pyCenter "PORTABLE DOC REPORT" 60, repChar '=' 60,
       "Generated on: " ++ ts, repChar '-' 60, "Total Users: 0"] := by
    simp [reportLines, h0]
  constructor
  · rw [generate_text_report, hL]
    simp only [strJoin, strAppendAssoc]
  · intro hts
    rw [generate_text_report, hL]
    apply splitNlStr_strJoin
    · simp
    · intro s hs
      simp only [List.mem_cons, List.not_mem_nil, or_false] at hs
      rcases hs with rfl | rfl | rfl | rfl | rfl | rfl
      · decide
      · decide
      · decide
      · exact noNl_append _ _ (by decide) hts
      · decide
      · decide

/-- Witness for C8 at a concrete timestamp. -/
theorem render_empty_report_witness :
    splitNlStr (generate_text_report [] "2025-01-01 00:00:00") =
      [repChar '=' 60, pyCenter "PORTABLE DOC REPORT" 60, repChar '=' 60,
       "Generated on: " ++ "2025-01-01 00:00:00", repChar '-' 60, "Total Users: 0"] :=
  (render_empty_report "2025-01-01 00:00:00").2 (by decide)

theorem getLast_mem_of_eq (l : List Char) (a : Char) (h : l.getLast? = some a) : a ∈ l := by
  have ha : a ∈ l.getLast? := by simp [h]
  rcases List.mem_getLast?_eq_getLast ha with ⟨hne, rfl⟩
  exact List.getLast_mem hne

/-- Claim C10 counterexample: a record whose `name` value embeds a newline
makes the report split into 14 newline-separated lines, not 6 + 7·1 = 13,
refuting the exact line count claimed for every record list. -/
theorem report_line_count_newline_field :
    (splitNlStr (generate_text_report [newlineRecord] "2025-01-01 00:00:00")).length = 14 ∧
    (splitNlStr (generate_text_report [newlineRecord] "2025-01-01 00:00:00")).length ≠
      6 + 7 * [newlineRecord].length := by
  refine ⟨by decide, by decide⟩

/-- Claim C10 (amended): provided every rendered per-record line and the
timestamp are newline-free, the report text splits on newlines into exactly
the built line list: 6 + 7·n lines (5 header lines, 7 per record, 1
footer), the final line is `Total Users: <n>`, and the text never ends
with a trailing newline (its last character is never a newline). -/
theorem report_line_structure (users : List UserData) (now : String)
    (hu : ∀ u ∈ users, ∀ s ∈ userLines u, noNl s) (hnow : noNl now) :
    splitNlStr (generate_text_report users now) = reportLines users now ∧
    (reportLines users now).length = 6 + 7 * users.length ∧
    (reportLines users now).getLast? = some ("Total Users: " ++ toString users.length) ∧
    (∀ c, (generate_text_report users now).data.getLast? = some c → c ≠ '\n') := by
  have hmem : ∀ s ∈ reportLines users now, noNl s := by
    intro s hs
    simp only [reportLines, List.append_assoc, List.cons_append, List.nil_append,
      List.mem_append, List.mem_cons, List.not_mem_nil, or_false, List.mem_flatMap] at hs
    rcases hs with rfl | rfl | rfl | rfl | rfl | ⟨u, hu2, hs2⟩ | rfl
    · decide
    · decide
    · decide
    · exact noNl_append _ _ (by decide) hnow
    · decide
    · exact hu u hu2 _ hs2
    · exact noNl_append _ _ (by decide) (natToString_noNl _)
  have hne : reportLines users now ≠ [] := by simp [reportLines]
  have hsplit : splitNlStr (generate_text_report users now) = reportLines users now :=
    splitNlStr_strJoin _ hne hmem
  refine ⟨hsplit, ?_, ?_, ?_⟩
  · simp only [reportLines, List.length_append, List.length_cons, List.length_nil,
      flatMap_userLines_length]
    omega
  · exact List.getLast?_concat _
  · intro c hc
    rcases strJoin_concat
        ([repChar '=' 60, pyCenter "PORTABLE DOC REPORT" 60, repChar '=' 60,
          "Generated on: " ++ now, repChar '-' 60] ++ users.flatMap userLines)
        ("Total Users: " ++ toString users.length) with ⟨P, hP⟩
    rw [generate_text_report, reportLines, hP, strDataAppend] at hc
    rw [List.getLast?_append] at hc
    have htotnn : ("Total Users: " ++ toString users.length).data ≠ [] := by
      rw [strDataAppend]
      simp
    have hor : ("Total Users: " ++ toString users.length).data.getLast? = some c := by
      rcases hlast : ("Total Users: " ++ toString users.length).data.getLast? with _ | c2
      · exact absurd (List.getLast?_eq_none_iff.mp hlast) htotnn
      · rw [hlast] at hc
        simpa using hc
    have hcmem := getLast_mem_of_eq _ _ hor
    exact noNl_append "Total Users: " (toString users.length) (by decide)
      (natToString_noNl _) c hcmem

/-- Witness for C10 at the empty record list and a concrete timestamp. -/
theorem report_line_structure_witness :
    splitNlStr (generate_text_report [] "2026-01-01 00:00:00") =
      reportLines [] "2026-01-01 00:00:00" ∧
    (reportLines [] "2026-01-01 00:00:00").length = 6 :=
  ⟨(report_line_structure [] "2026-01-01 00:00:00" (by simp) (by decide)).1,
   by simpa using (report_line_structure [] "2026-01-01 00:00:00" (by simp) (by decide)).2.1⟩

/-- Claim C9 counterexample: when `os.makedirs` fails (e.g. permissions),
the `except OSError: pass` in `__init__` silently swallows the failure and
the output directory does NOT exist afterwards — so the writer does not
ensure the directory exists, refuting the first half of C9. -/
theorem init_swallows_mkdir_error :
    (reportGeneratorInit "output"
      ⟨[], [], some "PermissionError: Errno 13 Permission denied", none⟩).2.dirs = [] ∧
    "output" ∉ (reportGeneratorInit "output"
      ⟨[], [], some "PermissionError: Errno 13 Permission denied", none⟩).2.dirs := by
  refine ⟨rfl, by decide⟩

/-- Claim C9 (amended): `__init__` treats an already-existing directory as
success (state unchanged); when `os.makedirs` succeeds it creates the
directory and its missing parents; but ALL `makedirs` failures are silently
swallowed, so existence is only ensured when creation succeeds.  Every
filesystem failure during the write operation propagates to the caller
unrecovered, and a successful write stores the content verbatim at
`directory/filename`. -/
theorem file_writer_behaviour (dir : String) (fs : FS) (content filename : String) :
    (dir ∈ fs.dirs → reportGeneratorInit dir fs = (⟨dir⟩, fs)) ∧
    (fs.mkdirErr = none → dir ∉ fs.dirs →
      (reportGeneratorInit dir fs).2.dirs = ancestors dir ++ fs.dirs) ∧
    (fs.mkdirErr = none → dir ∈ (reportGeneratorInit dir fs).2.dirs) ∧
    (∀ e, fs.writeErr = some e → save_to_file ⟨dir⟩ content filename fs = .error e) ∧
    (fs.writeErr = none → save_to_file ⟨dir⟩ content filename fs =
      .ok { fs with files := (dir ++ "/" ++ filename, content) ::
        fs.files.filter (fun kv => kv.1 ≠ dir ++ "/" ++ filename) }) := by
  refine ⟨?_, ?_, ?_, ?_, ?_⟩
  · intro hin
    simp [reportGeneratorInit, hin]
  · intro hmk hnotin
    simp [reportGeneratorInit, hnotin, makedirs, hmk]
  · intro hmk
    by_cases hin : dir ∈ fs.dirs
    · simp [reportGeneratorInit, hin]
    · simp only [reportGeneratorInit, hin, if_false, makedirs, hmk]
      simp [List.mem_append, self_mem_ancestors]
  · intro e he
    simp [save_to_file, he]
  · intro hw
    simp [save_to_file, hw]

/-- Witness for C9 on a filesystem that already has the directory. -/
theorem file_writer_behaviour_witness :
    reportGeneratorInit "output" ⟨["output"], [], none, none⟩ =
      (⟨"output"⟩, ⟨["output"], [], none, none⟩) ∧
    save_to_file ⟨"output"⟩ "report body" "r.txt" ⟨["output"], [], none, none⟩ =
      .ok ⟨["output"], [("output/r.txt", "report body")], none, none⟩ := by
  have h := file_writer_behaviour "output" ⟨["output"], [], none, none⟩ "report body" "r.txt"
  exact ⟨h.1 (by decide), h.2.2.2.2 rfl⟩

/-- Witness for C2 at a concrete timestamp. -/
theorem render_deterministic_generated_on_witness :
    generate_text_report [] "2025-06-01 10:20:30" =
      reportHead ++ "2025-06-01 10:20:30" ++ "\n" ++ reportAfterTs [] :=
  (render_deterministic_generated_on [] "2025-06-01 10:20:30" "unused").2

/-- Witness for C3: the record mapped from the empty object has both
defaults. -/
theorem from_json_nested_defaults_witness :
    (⟨Json.null, Json.null, Json.null, Json.null, Json.str "N/A", Json.str "N/A"⟩
      : UserData).company_name = Json.str "N/A" ∧
    (⟨Json.null, Json.null, Json.null, Json.null, Json.str "N/A", Json.str "N/A"⟩
      : UserData).city = Json.str "N/A" := by
  have h := (from_json_nested_defaults []).1
    ⟨Json.null, Json.null, Json.null, Json.null, Json.str "N/A", Json.str "N/A"⟩ rfl
  exact ⟨h.1 (Or.inl rfl), h.2 (Or.inl rfl)⟩

/-- Witness for C4 at the scenario decode failure. -/
theorem fetch_parse_error_iff_decode_failure_witness :
    ∃ m, fetch_data none 200 (.error "Expecting value: line 1 column 1 (char 0)") =
      .error (.dataParseError m) :=
  (fetch_parse_error_iff_decode_failure none 200
    (.error "Expecting value: line 1 column 1 (char 0)")).1.mpr
    ⟨rfl, rfl, "Expecting value: line 1 column 1 (char 0)", rfl⟩

/-- Witness for C5: the record mapped from the empty object carries `None`
in the absent top-level fields. -/
theorem from_json_failure_characterization_witness :
    (⟨Json.null, Json.null, Json.null, Json.null, Json.str "N/A", Json.str "N/A"⟩
      : UserData).id = Json.null ∧
    (⟨Json.null, Json.null, Json.null, Json.null, Json.str "N/A", Json.str "N/A"⟩
      : UserData).email = Json.null := by
  have h := (from_json_failure_characterization (Json.obj [])).2 []
    ⟨Json.null, Json.null, Json.null, Json.null, Json.str "N/A", Json.str "N/A"⟩ rfl rfl
  exact ⟨h.1 rfl, h.2.2.2 rfl⟩
